import Mathlib

/-!
Shallow embedding of the two dashboard applications
(`src/lakebase_apps/app.py`, the telecom IoT dashboard, and
`src/workspace_new/contentpulse_apps/app.py`, the ContentPulse dashboard)
together with theorems settling the specification claims.

Dataframes are modelled as lists of rows; the mutable module-level
`data_cache` dict is modelled as an explicit `DataCache` value threaded
through the fetch functions; the database is an oracle giving, for a query
string and an attempt index, either a dataframe or a raised exception
(`Except String`); the ambient clock (`time.time()`, `datetime.now()`) is an
explicit `World`/`Nat` parameter.  Float columns are modelled as exact
rationals.  Presentation-only details (colors, CSS, hover templates, number
formatting of KPI strings) are not part of the model.
-/

/-- A row of the telecom `telcom.iot_data_synced` table, with the columns the
telecom app reads: `tower_id`, `region`, `timestamp`, `data_usage_mb`,
`active_users`, `call_drop_rate`. -/
structure IotRow where
  tower_id : String
  region : String
  timestamp : Nat
  data_usage_mb : Rat
  active_users : Nat
  call_drop_rate : Rat
deriving DecidableEq

/-- A row of the content-engagement table, with the columns the ContentPulse
geo-map callback reads. -/
structure ContentRow where
  city : String
  country : String
  latitude : Rat
  longitude : Rat
  reader_id : Nat
  device_type : String
deriving DecidableEq

/-- The module-level `data_cache` dict of either app (initially an empty
dataframe and timestamp 0): the most recent successfully fetched dataframe
and its fetch time. -/
structure DataCache (ρ : Type) where
  df : List ρ
  timestamp : Nat
deriving DecidableEq

/-- The initial cache value: empty dataframe, timestamp 0. -/
def initCache (ρ : Type) : DataCache ρ := ⟨[], 0⟩

/-- The process environment: `os.getenv` returns `none` for unset keys. -/
def Env : Type := String → Option String

/-- `os.getenv(key, default)`. -/
def os_getenv (env : Env) (key default_ : String) : String :=
  (env key).getD default_

/-- Overriding one environment variable (used to state what changing a
variable does). -/
def envSet (env : Env) (key val : String) : Env :=
  fun k => if k = key then some val else env k

/-- Telecom app: `INSTANCE_NAME` read by `os.getenv` with its default. -/
def iot_INSTANCE_NAME (env : Env) : String :=
  os_getenv env "INSTANCE_NAME" "kunal-gaurav-lakebase-instance"

/-- Telecom app: `PGDATABASE` read by `os.getenv` with its default. -/
def iot_PGDATABASE (env : Env) : String :=
  os_getenv env "PGDATABASE" "pg_lakebase_kunal-gaurav"

/-- Telecom app: `PGHOST` read by `os.getenv` with its default. -/
def iot_PGHOST (env : Env) : String :=
  os_getenv env "PGHOST" "instance-f60d62f1-e44a-43c7-813f-58138e0552fd.database.cloud.databricks.com"

/-- ContentPulse app: `INSTANCE_NAME` read by `os.getenv` with its default. -/
def content_INSTANCE_NAME (env : Env) : String :=
  os_getenv env "INSTANCE_NAME" "kunal-gaurav-lakebase-instance"

/-- ContentPulse app: `PGDATABASE` read by `os.getenv` with its default. -/
def content_PGDATABASE (env : Env) : String :=
  os_getenv env "PGDATABASE" "pg_contentpulse_kunal-gaurav"

/-- ContentPulse app: `PGHOST` read by `os.getenv` with its default. -/
def content_PGHOST (env : Env) : String :=
  os_getenv env "PGHOST" "instance-f60d62f1-e44a-43c7-813f-58138e0552fd.database.cloud.databricks.com"

/-- ContentPulse app: `SCHEMA_NAME` read by `os.getenv`, default `publishing`. -/
def content_SCHEMA_NAME (env : Env) : String :=
  os_getenv env "SCHEMA_NAME" "publishing"

/-- ContentPulse app: `TABLE_NAME` read by `os.getenv`, default `content_engagement_synced`. -/
def content_TABLE_NAME (env : Env) : String :=
  os_getenv env "TABLE_NAME" "content_engagement_synced"

/-- The telecom app SQL text: a plain (non-f) triple-quoted string literal
inside `get_iot_data`; the table `telcom.iot_data_synced` is hard-coded. -/
def iot_query : String :=
  "\n                SELECT *\n                FROM telcom.iot_data_synced\n               \n                ORDER BY timestamp DESC\n            "

/-- The telecom app SQL text viewed as a function of the process environment
(the shape the specification claims it has).  By the source it is constant:
no environment variable occurs in the literal. -/
def iot_query_of_env (_env : Env) : String := iot_query

/-- The ContentPulse app SQL text: an f-string interpolating `SCHEMA_NAME`
and `TABLE_NAME` from the environment. -/
def content_query (env : Env) : String :=
  "\n                SELECT *\n                FROM " ++ content_SCHEMA_NAME env ++ "." ++ content_TABLE_NAME env
    ++ "\n                ORDER BY timestamp DESC\n            "

/-- `get_iot_data` of the telecom app.  `db q n` is the outcome of the n-th
database round-trip issued with SQL `q` during this call (connection acquire
plus `pd.read_sql`): `ok` a dataframe, `error` a raised exception message.
`now` is `time.time()`.  The try-body fetches once with `db iot_query 0`,
overwrites the cache and returns the fresh dataframe; the
`except Exception` handler returns the cached dataframe when non-empty and
an empty dataframe otherwise, leaving the cache untouched.  The outer
`Except` is the calls own exceptional outcome: `error` would mean an
exception propagated to the caller. -/
def get_iot_data (db : String → Nat → Except String (List IotRow)) (now : Nat)
    (cache : DataCache IotRow) :
    Except String (List IotRow × DataCache IotRow) :=
  match db iot_query 0 with
  | Except.ok df => Except.ok (df, ⟨df, now⟩)
  | Except.error _e =>
    if cache.df.isEmpty then Except.ok ([], cache)
    else Except.ok (cache.df, cache)

/-- `get_content_data` of the ContentPulse app; identical structure to
`get_iot_data` except that the SQL is built from the environment. -/
def get_content_data (db : String → Nat → Except String (List ContentRow)) (env : Env)
    (now : Nat) (cache : DataCache ContentRow) :
    Except String (List ContentRow × DataCache ContentRow) :=
  match db (content_query env) 0 with
  | Except.ok df => Except.ok (df, ⟨df, now⟩)
  | Except.error _e =>
    if cache.df.isEmpty then Except.ok ([], cache)
    else Except.ok (cache.df, cache)

/-- C1: if the database query raises, the fetch function returns the cached
dataframe when that cache is non-empty and an empty dataframe when the cache
is empty — for both `get_iot_data` and `get_content_data`. -/
theorem fetch_error_returns_cache_or_empty
    (dbI : String → Nat → Except String (List IotRow)) (nowI : Nat)
    (cI : DataCache IotRow) (eI : String)
    (dbC : String → Nat → Except String (List ContentRow)) (env : Env) (nowC : Nat)
    (cC : DataCache ContentRow) (eC : String)
    (hI : dbI iot_query 0 = Except.error eI)
    (hC : dbC (content_query env) 0 = Except.error eC) :
    get_iot_data dbI nowI cI
        = Except.ok ((if cI.df.isEmpty then [] else cI.df), cI)
    ∧ get_content_data dbC env nowC cC
        = Except.ok ((if cC.df.isEmpty then [] else cC.df), cC) := by
  constructor
  · unfold get_iot_data
    rw [hI]
    by_cases h : cI.df.isEmpty <;> simp [h]
  · unfold get_content_data
    rw [hC]
    by_cases h : cC.df.isEmpty <;> simp [h]

/-- A database oracle that always raises, used to witness the error-path
theorems. -/
def dbIotErr : String → Nat → Except String (List IotRow) :=
  fun _ _ => Except.error "connection refused"

/-- A ContentPulse database oracle that always raises. -/
def dbContentErr : String → Nat → Except String (List ContentRow) :=
  fun _ _ => Except.error "connection refused"

/-- A sample telecom row. -/
def sampleIotRow : IotRow :=
  ⟨"TWR-001", "North", 100, 512, 40, 2⟩

/-- A sample non-empty telecom cache. -/
def sampleIotCache : DataCache IotRow := ⟨[sampleIotRow], 7⟩

/-- The empty environment: every variable unset. -/
def envDefault : Env := fun _ => Option.none

/-- Witness for C1 at a concrete erroring oracle, non-empty telecom cache and
empty content cache. -/
theorem fetch_error_returns_cache_or_empty_witness :
    dbIotErr iot_query 0 = Except.error "connection refused"
    ∧ dbContentErr (content_query envDefault) 0 = Except.error "connection refused"
    ∧ (get_iot_data dbIotErr 5 sampleIotCache
          = Except.ok ((if sampleIotCache.df.isEmpty then [] else sampleIotCache.df), sampleIotCache)
        ∧ get_content_data dbContentErr envDefault 5 (initCache ContentRow)
          = Except.ok ((if (initCache ContentRow).df.isEmpty then [] else (initCache ContentRow).df),
              initCache ContentRow)) :=
  ⟨rfl, rfl,
    fetch_error_returns_cache_or_empty dbIotErr 5 sampleIotCache "connection refused"
      dbContentErr envDefault 5 (initCache ContentRow) "connection refused" rfl rfl⟩

/-- C2: on a successful query the cache is overwritten with the freshly
fetched dataframe and the current fetch time, and the call returns the live
result (regardless of what the cache held before) — for both apps. -/
theorem fetch_success_overwrites_cache
    (dbI : String → Nat → Except String (List IotRow)) (nowI : Nat)
    (cI : DataCache IotRow) (dfI : List IotRow)
    (dbC : String → Nat → Except String (List ContentRow)) (env : Env) (nowC : Nat)
    (cC : DataCache ContentRow) (dfC : List ContentRow)
    (hI : dbI iot_query 0 = Except.ok dfI)
    (hC : dbC (content_query env) 0 = Except.ok dfC) :
    get_iot_data dbI nowI cI = Except.ok (dfI, ⟨dfI, nowI⟩)
    ∧ get_content_data dbC env nowC cC = Except.ok (dfC, ⟨dfC, nowC⟩) := by
  constructor
  · unfold get_iot_data; rw [hI]
  · unfold get_content_data; rw [hC]

/-- A database oracle that always succeeds with one telecom row. -/
def dbIotOk : String → Nat → Except String (List IotRow) :=
  fun _ _ => Except.ok [sampleIotRow]

/-- A ContentPulse database oracle that always succeeds with no rows. -/
def dbContentOk : String → Nat → Except String (List ContentRow) :=
  fun _ _ => Except.ok []

/-- Witness for C2 at concrete succeeding oracles. -/
theorem fetch_success_overwrites_cache_witness :
    dbIotOk iot_query 0 = Except.ok [sampleIotRow]
    ∧ dbContentOk (content_query envDefault) 0 = Except.ok []
    ∧ (get_iot_data dbIotOk 9 sampleIotCache = Except.ok ([sampleIotRow], ⟨[sampleIotRow], 9⟩)
        ∧ get_content_data dbContentOk envDefault 9 (initCache ContentRow)
          = Except.ok ([], ⟨[], 9⟩)) :=
  ⟨rfl, rfl,
    fetch_success_overwrites_cache dbIotOk 9 sampleIotCache [sampleIotRow]
      dbContentOk envDefault 9 (initCache ContentRow) [] rfl rfl⟩

/-- C6: the fetch behavior depends only on the outcome of the first (index 0)
database round-trip of the call: two oracles agreeing on that outcome give
identical calls.  In particular a failed query is never retried and no
later attempt within the call can matter — for both apps. -/
theorem fetch_single_query_attempt
    (dbI dbI' : String → Nat → Except String (List IotRow)) (nowI : Nat)
    (cI : DataCache IotRow)
    (dbC dbC' : String → Nat → Except String (List ContentRow)) (env : Env) (nowC : Nat)
    (cC : DataCache ContentRow)
    (hI : dbI iot_query 0 = dbI' iot_query 0)
    (hC : dbC (content_query env) 0 = dbC' (content_query env) 0) :
    get_iot_data dbI nowI cI = get_iot_data dbI' nowI cI
    ∧ get_content_data dbC env nowC cC = get_content_data dbC' env nowC cC := by
  constructor
  · unfold get_iot_data; rw [hI]
  · unfold get_content_data; rw [hC]

/-- An oracle erring on attempt 0 and succeeding on every later attempt: a
retry inside the call would change the result. -/
def dbIotErrThenOk : String → Nat → Except String (List IotRow) :=
  fun _ n => if n = 0 then Except.error "connection refused" else Except.ok [sampleIotRow]

/-- A content oracle erring on attempt 0 and succeeding later. -/
def dbContentErrThenOk : String → Nat → Except String (List ContentRow) :=
  fun _ n => if n = 0 then Except.error "connection refused" else Except.ok []

/-- Witness for C6: the erring-then-succeeding oracle behaves like the
always-erring one, because only attempt 0 is ever consulted. -/
theorem fetch_single_query_attempt_witness :
    dbIotErrThenOk iot_query 0 = dbIotErr iot_query 0
    ∧ dbContentErrThenOk (content_query envDefault) 0 = dbContentErr (content_query envDefault) 0
    ∧ (get_iot_data dbIotErrThenOk 3 sampleIotCache = get_iot_data dbIotErr 3 sampleIotCache
        ∧ get_content_data dbContentErrThenOk envDefault 3 (initCache ContentRow)
          = get_content_data dbContentErr envDefault 3 (initCache ContentRow)) :=
  ⟨rfl, rfl,
    fetch_single_query_attempt dbIotErrThenOk dbIotErr 3 sampleIotCache
      dbContentErrThenOk dbContentErr envDefault 3 (initCache ContentRow) rfl rfl⟩

/-- C8: when the database query raises, the cache (both its dataframe and its
timestamp) is exactly what it was before the call — for both apps. -/
theorem fetch_error_preserves_cache
    (dbI : String → Nat → Except String (List IotRow)) (nowI : Nat)
    (cI : DataCache IotRow) (eI : String)
    (dbC : String → Nat → Except String (List ContentRow)) (env : Env) (nowC : Nat)
    (cC : DataCache ContentRow) (eC : String)
    (hI : dbI iot_query 0 = Except.error eI)
    (hC : dbC (content_query env) 0 = Except.error eC) :
    (∃ r, get_iot_data dbI nowI cI = Except.ok (r, cI))
    ∧ (∃ r, get_content_data dbC env nowC cC = Except.ok (r, cC)) := by
  constructor
  · refine ⟨if cI.df.isEmpty then [] else cI.df, ?_⟩
    unfold get_iot_data
    rw [hI]
    by_cases h : cI.df.isEmpty <;> simp [h]
  · refine ⟨if cC.df.isEmpty then [] else cC.df, ?_⟩
    unfold get_content_data
    rw [hC]
    by_cases h : cC.df.isEmpty <;> simp [h]

/-- Witness for C8 at a concrete erroring oracle: both components of the
cache survive the failed call unchanged. -/
theorem fetch_error_preserves_cache_witness :
    dbIotErr iot_query 0 = Except.error "connection refused"
    ∧ dbContentErr (content_query envDefault) 0 = Except.error "connection refused"
    ∧ ((∃ r, get_iot_data dbIotErr 11 sampleIotCache = Except.ok (r, sampleIotCache))
        ∧ (∃ r, get_content_data dbContentErr envDefault 11 (initCache ContentRow)
            = Except.ok (r, initCache ContentRow))) :=
  ⟨rfl, rfl,
    fetch_error_preserves_cache dbIotErr 11 sampleIotCache "connection refused"
      dbContentErr envDefault 11 (initCache ContentRow) "connection refused" rfl rfl⟩

/-- C9: the fetch functions are total at their public interface: whatever the
database round-trip does (success or any raised exception), the call returns
a dataframe normally and never propagates an exception — for both apps. -/
theorem fetch_never_raises :
    (∀ (db : String → Nat → Except String (List IotRow)) (now : Nat) (c : DataCache IotRow),
      ∃ v, get_iot_data db now c = Except.ok v)
    ∧ (∀ (db : String → Nat → Except String (List ContentRow)) (env : Env) (now : Nat)
        (c : DataCache ContentRow),
      ∃ v, get_content_data db env now c = Except.ok v) := by
  constructor
  · intro db now c
    unfold get_iot_data
    cases db iot_query 0 with
    | ok df => exact ⟨(df, ⟨df, now⟩), rfl⟩
    | error e =>
      by_cases h : c.df.isEmpty
      · exact ⟨([], c), by simp [h]⟩
      · exact ⟨(c.df, c), by simp [h]⟩
  · intro db env now c
    unfold get_content_data
    cases db (content_query env) 0 with
    | ok df => exact ⟨(df, ⟨df, now⟩), rfl⟩
    | error e =>
      by_cases h : c.df.isEmpty
      · exact ⟨([], c), by simp [h]⟩
      · exact ⟨(c.df, c), by simp [h]⟩

/-- A credential request as built by `w.database.generate_database_credential`
inside `RotatingTokenConnection.connect`: the per-call `request_id` (a fresh
`uuid.uuid4()` string) and the instance-name list. -/
structure CredentialRequest where
  request_id : String
  instance_names : List String
deriving DecidableEq

/-- The arguments `super().connect(conninfo, **kwargs)` receives: `kwargs`
is a Python dict, modelled as an association list keyed by argument name. -/
structure SuperConnect where
  conninfo : String
  kwargs : List (String × String)
deriving DecidableEq

/-- The observable effect of one `RotatingTokenConnection.connect` call: the
arguments handed to the base-class connect, together with the list of
credential requests issued to the vendor SDK during the call. -/
structure ConnectResult where
  superCall : SuperConnect
  requests : List CredentialRequest
deriving DecidableEq

/-- Python `dict.pop(key)` without a default: the value and the remaining
dict, or `none` (a KeyError) when the key is absent. -/
def dictPop (key : String) (m : List (String × String)) :
    Option (String × List (String × String)) :=
  match m.lookup key with
  | some v => some (v, m.filter (fun p => p.1 ≠ key))
  | none => none

/-- Python `dict[key] = val`: overwrite. -/
def dictSet (key val : String) (m : List (String × String)) :
    List (String × String) :=
  (key, val) :: m.filter (fun p => p.1 ≠ key)

/-- Python `dict.setdefault(key, val)`: insert only when absent. -/
def dictSetdefault (key val : String) (m : List (String × String)) :
    List (String × String) :=
  if (m.lookup key).isSome then m else (key, val) :: m

/-- `RotatingTokenConnection.connect` (identical in both apps).  `gen` is the
vendor SDK `generate_database_credential` call viewed as a function from the
request to the returned token; `uid` is the `str(uuid.uuid4())` drawn by this
call.  The body pops `_instance_name` from the kwargs (a KeyError, modelled
as `Except.error`, if absent), unconditionally requests a fresh credential,
stores its token under `password`, defaults `sslmode` to `require`, and hands
the result to `super().connect`. -/
def RotatingTokenConnection_connect (gen : CredentialRequest → String) (uid : String)
    (conninfo : String) (kwargs : List (String × String)) :
    Except String ConnectResult :=
  match dictPop "_instance_name" kwargs with
  | none => Except.error "KeyError"
  | some (inst, kwargs1) =>
    let req : CredentialRequest := ⟨uid, [inst]⟩
    let token := gen req
    let kwargs2 := dictSet "password" token kwargs1
    let kwargs3 := dictSetdefault "sslmode" "require" kwargs2
    Except.ok ⟨⟨conninfo, kwargs3⟩, [req]⟩

/-- C3: every connect call that reaches the base-class connect issued exactly
one credential request, carrying the fresh request id of this very call, and the
token generated for that request is the `password` entry of the kwargs the
base-class connect receives. -/
theorem connect_injects_fresh_token (gen : CredentialRequest → String)
    (uid conninfo inst : String) (kwargs : List (String × String)) (r : ConnectResult)
    (hinst : kwargs.lookup "_instance_name" = some inst)
    (h : RotatingTokenConnection_connect gen uid conninfo kwargs = Except.ok r) :
    r.requests = [⟨uid, [inst]⟩]
    ∧ r.superCall.kwargs.lookup "password" = some (gen ⟨uid, [inst]⟩) := by
  unfold RotatingTokenConnection_connect dictPop at h
  rw [hinst] at h
  simp only [Except.ok.injEq] at h
  subst h
  refine ⟨rfl, ?_⟩
  simp only [dictSetdefault, dictSet]
  split
  · simp [List.lookup]
  · simp [List.lookup]

/-- A concrete token generator for the connect witnesses. -/
def sampleGen : CredentialRequest → String :=
  fun req => String.append "token-for-" req.request_id

/-- The kwargs the connection pool passes: a dict holding only the key `_instance_name`. -/
def sampleKwargs : List (String × String) :=
  [("_instance_name", "kunal-gaurav-lakebase-instance")]

/-- Witness for C3 at a concrete connect call coming from the pool. -/
theorem connect_injects_fresh_token_witness :
    sampleKwargs.lookup "_instance_name" = some "kunal-gaurav-lakebase-instance"
    ∧ RotatingTokenConnection_connect sampleGen "uuid-1234" "" sampleKwargs
        = Except.ok ⟨⟨"", [("sslmode", "require"),
            ("password", "token-for-uuid-1234")]⟩,
          [⟨"uuid-1234", ["kunal-gaurav-lakebase-instance"]⟩]⟩
    ∧ ((⟨⟨"", [("sslmode", "require"), ("password", "token-for-uuid-1234")]⟩,
          [⟨"uuid-1234", ["kunal-gaurav-lakebase-instance"]⟩]⟩ : ConnectResult).requests
          = [⟨"uuid-1234", ["kunal-gaurav-lakebase-instance"]⟩]
        ∧ (⟨⟨"", [("sslmode", "require"), ("password", "token-for-uuid-1234")]⟩,
            [⟨"uuid-1234", ["kunal-gaurav-lakebase-instance"]⟩]⟩ : ConnectResult).superCall.kwargs.lookup "password"
          = some (sampleGen ⟨"uuid-1234", ["kunal-gaurav-lakebase-instance"]⟩)) :=
  ⟨rfl, rfl,
    connect_injects_fresh_token sampleGen "uuid-1234" "" "kunal-gaurav-lakebase-instance"
      sampleKwargs _ rfl rfl⟩

/-- C4 counterexample: no connect call that opens a connection skips the
token refresh — there is no input on which `RotatingTokenConnection.connect`
reaches the base-class connect having issued no credential request.  The
refresh is straight-line code, not a guarded branch. -/
theorem connect_refresh_never_skipped_counterexample :
    ¬ ∃ (gen : CredentialRequest → String) (uid conninfo : String)
        (kwargs : List (String × String)) (r : ConnectResult),
      RotatingTokenConnection_connect gen uid conninfo kwargs = Except.ok r
      ∧ r.requests = [] := by
  rintro ⟨gen, uid, conninfo, kwargs, r, h, hreq⟩
  unfold RotatingTokenConnection_connect at h
  cases hp : dictPop "_instance_name" kwargs with
  | none => rw [hp] at h; exact Except.noConfusion h
  | some p =>
    rw [hp] at h
    obtain ⟨inst, kwargs1⟩ := p
    simp only [Except.ok.injEq] at h
    subst h
    exact List.cons_ne_nil _ _ hreq

/-- C4 amended: the token refresh before opening a connection is
unconditional — every connect call that reaches the base-class connect
performed exactly one credential request. -/
theorem connect_refresh_unconditional (gen : CredentialRequest → String)
    (uid conninfo : String) (kwargs : List (String × String)) (r : ConnectResult)
    (h : RotatingTokenConnection_connect gen uid conninfo kwargs = Except.ok r) :
    r.requests.length = 1 := by
  unfold RotatingTokenConnection_connect at h
  cases hp : dictPop "_instance_name" kwargs with
  | none => rw [hp] at h; exact Except.noConfusion h
  | some p =>
    rw [hp] at h
    obtain ⟨inst, kwargs1⟩ := p
    simp only [Except.ok.injEq] at h
    subst h
    rfl

/-- Witness for the amended C4 at a concrete connect call. -/
theorem connect_refresh_unconditional_witness :
    RotatingTokenConnection_connect sampleGen "uuid-5678" "" sampleKwargs
      = Except.ok ⟨⟨"", [("sslmode", "require"),
          ("password", "token-for-uuid-5678")]⟩,
        [⟨"uuid-5678", ["kunal-gaurav-lakebase-instance"]⟩]⟩
    ∧ ((⟨⟨"", [("sslmode", "require"), ("password", "token-for-uuid-5678")]⟩,
          [⟨"uuid-5678", ["kunal-gaurav-lakebase-instance"]⟩]⟩ : ConnectResult).requests.length = 1) :=
  ⟨rfl, connect_refresh_unconditional sampleGen "uuid-5678" "" sampleKwargs _ rfl⟩

/-- An environment that redirects the schema and table variables. -/
def envAltered : Env := fun k =>
  if k = "SCHEMA_NAME" then some "other_schema"
  else if k = "TABLE_NAME" then some "other_table" else Option.none

/-- C5 counterexample: in the telecom dashboard, changing the schema/table
environment variables does not change the SQL at all — the table
`telcom.iot_data_synced` is hard-coded in the query literal, so the claim
fails for that dashboard (while `envAltered` and `envDefault` do differ on
`SCHEMA_NAME` and `TABLE_NAME`, and the ContentPulse query does react). -/
theorem env_table_selection_counterexample :
    envAltered "SCHEMA_NAME" = some "other_schema"
    ∧ envAltered "TABLE_NAME" = some "other_table"
    ∧ envDefault "SCHEMA_NAME" = Option.none
    ∧ envDefault "TABLE_NAME" = Option.none
    ∧ iot_query_of_env envAltered = iot_query_of_env envDefault
    ∧ content_query envAltered ≠ content_query envDefault := by
  refine ⟨by decide, by decide, rfl, rfl, rfl, by decide⟩

/-- C5 amended: the `SCHEMA_NAME` and `TABLE_NAME` environment variables
select the schema-qualified table of the ContentPulse SQL (changing them
changes the statement accordingly), and environment variables select the
instance name, host and database name in both dashboards; the telecom SQL,
however, is a fixed literal naming `telcom.iot_data_synced`, unaffected by
the environment. -/
theorem env_selection_amended (env : Env) (s t v : String) :
    content_query (envSet (envSet env "SCHEMA_NAME" s) "TABLE_NAME" t)
      = "\n                SELECT *\n                FROM " ++ s ++ "." ++ t
        ++ "\n                ORDER BY timestamp DESC\n            "
    ∧ iot_query_of_env env = iot_query
    ∧ iot_INSTANCE_NAME (envSet env "INSTANCE_NAME" v) = v
    ∧ iot_PGHOST (envSet env "PGHOST" v) = v
    ∧ iot_PGDATABASE (envSet env "PGDATABASE" v) = v
    ∧ content_INSTANCE_NAME (envSet env "INSTANCE_NAME" v) = v
    ∧ content_PGHOST (envSet env "PGHOST" v) = v
    ∧ content_PGDATABASE (envSet env "PGDATABASE" v) = v := by
  refine ⟨?_, rfl, rfl, rfl, rfl, rfl, rfl, rfl⟩
  simp [content_query, content_SCHEMA_NAME, content_TABLE_NAME, os_getenv, envSet]

/-- The ambient state available to a callback: the wall clock.  The Python
callbacks could consult `datetime.now()`; passing it explicitly lets the
theorems say which outputs do not depend on it. -/
structure World where
  now : Nat
deriving DecidableEq

/-- pandas `Series.unique()`: the distinct values in order of first
occurrence. -/
def uniqueFirst {α : Type} [DecidableEq α] : List α → List α
  | [] => []
  | a :: l => a :: uniqueFirst (l.filter (fun b => b != a))
termination_by l => l.length
decreasing_by
  simp only [List.length_cons]
  exact Nat.lt_succ_of_le (List.length_filter_le _ _)

/-- Every value `uniqueFirst` returns occurs in the input. -/
theorem mem_uniqueFirst {α : Type} [DecidableEq α] (x : α) :
    ∀ l : List α, x ∈ uniqueFirst l → x ∈ l := by
  intro l
  induction l using uniqueFirst.induct with
  | case1 => intro h; simp [uniqueFirst] at h
  | case2 a l ih =>
    intro h
    rw [uniqueFirst] at h
    rcases List.mem_cons.mp h with h | h
    · exact h ▸ List.mem_cons_self _ _
    · exact List.mem_cons_of_mem _ (List.mem_of_mem_filter (ih h))

/-- `uniqueFirst` returns pairwise-distinct values. -/
theorem uniqueFirst_nodup {α : Type} [DecidableEq α] :
    ∀ l : List α, (uniqueFirst l).Nodup := by
  intro l
  induction l using uniqueFirst.induct with
  | case1 => simp [uniqueFirst]
  | case2 a l ih =>
    rw [uniqueFirst]
    refine List.nodup_cons.mpr ⟨?_, ih⟩
    intro hmem
    have hx := mem_uniqueFirst a _ hmem
    have hne := List.of_mem_filter hx
    simp at hne

/-- Comparison key of the sort-by-timestamp step. -/
def tsLe (a b : IotRow) : Prop := a.timestamp ≤ b.timestamp

instance : DecidableRel tsLe :=
  fun a b => inferInstanceAs (Decidable (a.timestamp ≤ b.timestamp))

instance : IsTotal IotRow tsLe := ⟨fun a b => Nat.le_total a.timestamp b.timestamp⟩

instance : IsTrans IotRow tsLe := ⟨fun _ _ _ hab hbc => Nat.le_trans hab hbc⟩

/-- pandas `DataFrame.sort_values` on the timestamp column: sort the rows by
their timestamp, ascending. -/
def sort_values_timestamp (rows : List IotRow) : List IotRow :=
  List.insertionSort tsLe rows

/-- pandas `.tail(k)`: the last `k` rows. -/
def tailN {α : Type} (k : Nat) (l : List α) : List α := l.drop (l.length - k)

/-- One plotly `go.Scatter` trace as the telecom charts build it: the `x`
series (timestamps), the `y` series, and the trace name (the tower id). -/
structure Trace where
  x : List Nat
  y : List Rat
  name : String
deriving DecidableEq

/-- A plotly figure, restricted to the content the callbacks put into it:
a bare figure, a figure holding only a centered no-data text, a scatter
figure with traces and a title, a gauge indicator with its value, or a
`Scattergeo` map with its per-marker series. -/
inductive Fig where
  | blank
  | noData (text : String)
  | scatter (traces : List Trace) (title : String)
  | gauge (value : Rat)
  | geo (lon lat : List Rat) (text : List String) (size color : List Rat)
deriving DecidableEq

/-- The traces of a scatter figure (empty for the other figure kinds). -/
def Fig.tracesOf : Fig → List Trace
  | .scatter ts _ => ts
  | _ => []

/-- The region filter: keep the rows of the selected region, or the whole dataframe when no region is selected. -/
def filterRegion (region : Option String) (df : List IotRow) : List IotRow :=
  match region with
  | some r => df.filter (fun row => row.region == r)
  | none => df

/-- The region options: the distinct region values, sorted. -/
def regionsSorted (df : List IotRow) : List String :=
  List.insertionSort (· ≤ ·) (uniqueFirst (df.map (·.region)))

/-- The region `initialize_charts` ends up using: the one passed in, or for a
non-empty dataframe with no selection, the first entry of the sorted region
options. -/
def effRegion (df : List IotRow) (region : Option String) : Option String :=
  if df.isEmpty then region
  else
    match region with
    | some r => some r
    | none => (regionsSorted df).head?

/-- The tower selection: the first five distinct tower ids of the filtered dataframe. -/
def towersTop5 (dff : List IotRow) : List String :=
  (uniqueFirst (dff.map (·.tower_id))).take 5

/-- The rows of one tower within the filtered dataframe. -/
def towerRows (dff : List IotRow) (t : String) : List IotRow :=
  dff.filter (fun r => r.tower_id == t)

/-- The rows of one tower, sorted by timestamp, last 100 kept. -/
def towerRecent (dff : List IotRow) (t : String) : List IotRow :=
  tailN 100 (sort_values_timestamp (towerRows dff t))

/-- The data-usage trace of one tower in chart 1. -/
def usageTrace (dff : List IotRow) (t : String) : Trace :=
  ⟨(towerRecent dff t).map (·.timestamp),
    (towerRecent dff t).map (·.data_usage_mb), t⟩

/-- The active-users trace of one tower in chart 2. -/
def usersTrace (dff : List IotRow) (t : String) : Trace :=
  ⟨(towerRecent dff t).map (·.timestamp),
    (towerRecent dff t).map (fun r => (r.active_users : Rat)), t⟩

/-- pandas `.mean()` (over exact rationals; the empty mean is 0 where pandas
gives NaN). -/
def listMean (l : List Rat) : Rat := l.sum / (l.length : Rat)

/-- The gauge value of chart 3: the mean call-drop rate, scaled by 100 when
below 1. -/
def gaugeValue (dff : List IotRow) : Rat :=
  let avg_drop := listMean (dff.map (·.call_drop_rate))
  if avg_drop < 1 then avg_drop * 100 else avg_drop

/-- The `initialize_charts` callback of the telecom app (figure content and
region options; styling is presentation and not modelled).  For an empty
dataframe every chart is the no-data placeholder; otherwise chart 1 plots
data usage and chart 2 active users for the first five distinct towers of the
region-filtered dataframe, each trace the most recent 100 rows sorted by
timestamp, and chart 3 is the call-drop gauge. -/
def initialize_charts (df : List IotRow) (region0 : Option String) (_w : World) :
    Fig × Fig × Fig × List String :=
  let regions := if df.isEmpty then [] else regionsSorted df
  if df.isEmpty then
    (Fig.noData "No Data Available", Fig.noData "No Data Available",
      Fig.noData "No Data Available", regions)
  else
    let region := effRegion df region0
    let dff := filterRegion region df
    (Fig.scatter ((towersTop5 dff).map (usageTrace dff))
        (String.append "Data Usage Trend - " (region.getD "All Regions")),
      Fig.scatter ((towersTop5 dff).map (usersTrace dff))
        (String.append "Active Users - " (region.getD "All Regions")),
      Fig.gauge (gaugeValue dff),
      regions)

/-- The value of an `extendData` output: either no update (`None`) or a
triple of per-trace series, trace indices and the per-trace retention
limit. -/
inductive ExtendOut where
  | noUpdate
  | extend (x : List (List Nat)) (y : List (List Rat)) (traceIndices : List Nat)
      (maxPoints : Nat)
deriving DecidableEq

/-- The KPI numbers `extend_timeseries` computes (their string formatting is
presentation and not modelled). -/
structure KPIs where
  total_users : Nat
  total_data : Rat
  avg_signal : Rat
  total_towers : Nat
deriving DecidableEq

/-- The maximum timestamp of the filtered dataframe (0 on an empty frame,
which the caller rules out). -/
def latestTime (dff : List IotRow) : Nat := (dff.map (·.timestamp)).foldl max 0

/-- The new rows of the tick: timestamps within 30 seconds of the latest
(rows whose timestamp is at least the latest minus 30 seconds). -/
def newData (region : Option String) (df : List IotRow) : List IotRow :=
  (filterRegion region df).filter
    (fun r => latestTime (filterRegion region df) - 30 ≤ r.timestamp)

/-- The KPI numbers over the region-filtered dataframe. -/
def extendKpis (dff : List IotRow) : KPIs :=
  ⟨(dff.map (·.active_users)).sum,
    (dff.map (·.data_usage_mb)).sum / 1024,
    listMean (dff.map (·.call_drop_rate)),
    (uniqueFirst (dff.map (·.tower_id))).length⟩

/-- The per-tower `x` (timestamp) series appended on a tick: for each of the
first five distinct towers, the new rows of that tower sorted by
timestamp. -/
def extendSeriesTs (region : Option String) (df : List IotRow) : List (List Nat) :=
  (towersTop5 (filterRegion region df)).map
    (fun t => (sort_values_timestamp
      ((newData region df).filter (fun r => r.tower_id == t))).map (·.timestamp))

/-- The per-tower data-usage `y` series appended on a tick. -/
def extendSeriesUsage (region : Option String) (df : List IotRow) : List (List Rat) :=
  (towersTop5 (filterRegion region df)).map
    (fun t => (sort_values_timestamp
      ((newData region df).filter (fun r => r.tower_id == t))).map (·.data_usage_mb))

/-- The per-tower active-users `y` series appended on a tick. -/
def extendSeriesUsers (region : Option String) (df : List IotRow) : List (List Rat) :=
  (towersTop5 (filterRegion region df)).map
    (fun t => (sort_values_timestamp
      ((newData region df).filter (fun r => r.tower_id == t))).map
        (fun r => (r.active_users : Rat)))

/-- The `extend_timeseries` callback of the telecom app: the two `extendData`
outputs, the KPI numbers, and the shown update time (`datetime.now()`).
Tick 0, an empty dataframe, and a tick with no new rows send no extend
update; otherwise both charts are extended against trace indices
`list(range(5))` with 200 points retained per trace. -/
def extend_timeseries (n : Nat) (region : Option String) (df : List IotRow)
    (w : World) : ExtendOut × ExtendOut × Option KPIs × Option Nat :=
  if n = 0 then (ExtendOut.noUpdate, ExtendOut.noUpdate, Option.none, Option.none)
  else if df.isEmpty then
    (ExtendOut.noUpdate, ExtendOut.noUpdate, Option.none, Option.none)
  else if (newData region df).isEmpty then
    (ExtendOut.noUpdate, ExtendOut.noUpdate,
      some (extendKpis (filterRegion region df)), some w.now)
  else
    (ExtendOut.extend (extendSeriesTs region df) (extendSeriesUsage region df)
        (List.range 5) 200,
      ExtendOut.extend (extendSeriesTs region df) (extendSeriesUsers region df)
        (List.range 5) 200,
      some (extendKpis (filterRegion region df)), some w.now)

/-- The grouping key of the geo map: city, country, latitude and
longitude. -/
structure GeoKey where
  city : String
  country : String
  latitude : Rat
  longitude : Rat
deriving DecidableEq

/-- Three-way comparison of rationals. -/
def ordRat (a b : Rat) : Ordering :=
  if a < b then Ordering.lt else if a = b then Ordering.eq else Ordering.gt

/-- Lexicographic comparison of grouping keys (pandas sorts group keys
ascending). -/
def geoKeyOrd (a b : GeoKey) : Ordering :=
  (compare a.city b.city).then ((compare a.country b.country).then
    ((ordRat a.latitude b.latitude).then (ordRat a.longitude b.longitude)))

/-- The sort relation on grouping keys. -/
def geoKeyLe (a b : GeoKey) : Prop := (geoKeyOrd a b).isLE = true

instance : DecidableRel geoKeyLe :=
  fun a b => inferInstanceAs (Decidable ((geoKeyOrd a b).isLE = true))

/-- The grouping key of a content row. -/
def geoKey (r : ContentRow) : GeoKey := ⟨r.city, r.country, r.latitude, r.longitude⟩

/-- The geo groupby with a count aggregate over `reader_id`: each distinct
key, sorted ascending, with the number of rows carrying it. -/
def groupbyGeo (df : List ContentRow) : List (GeoKey × Nat) :=
  (List.insertionSort geoKeyLe (uniqueFirst (df.map geoKey))).map
    (fun k => (k, (df.filter (fun r => geoKey r == k)).length))

/-- pandas `.clip(lower, upper)` on one value. -/
def clipRat (lo hi x : Rat) : Rat := min hi (max lo x)

/-- The `update_geo_map` callback of the ContentPulse app (marker content of
the `Scattergeo` figure): an empty dataframe gives a bare figure; otherwise
one marker per city group with its reader count in the hover text, the size
`readers * 0.05` clipped to `[2, 10]`, and the count as the color value. -/
def update_geo_map (df : List ContentRow) (_w : World) : Fig :=
  if df.isEmpty then Fig.blank
  else
    let groups := groupbyGeo df
    Fig.geo (groups.map (fun g => g.1.longitude))
      (groups.map (fun g => g.1.latitude))
      (groups.map (fun g => String.append g.1.city
        (String.append "<br>" (String.append (toString g.2) " readers"))))
      (groups.map (fun g => clipRat 2 10 ((g.2 : Rat) * (5 / 100))))
      (groups.map (fun g => (g.2 : Rat)))

/-- C7: the figure-building logic is deterministic in the input dataframe:
it reads nothing from the ambient world (clock), so two runs on the same
dataframe (and the same region selection) yield equal figure objects — for
the telecom `initialize_charts` figures and the ContentPulse geo map. -/
theorem figures_deterministic :
    (∀ (df : List IotRow) (region : Option String) (w w' : World),
      initialize_charts df region w = initialize_charts df region w')
    ∧ (∀ (df : List ContentRow) (w w' : World),
      update_geo_map df w = update_geo_map df w') :=
  ⟨fun _ _ _ _ => rfl, fun _ _ _ => rfl⟩

/-- `towersTop5` never selects more than five towers. -/
theorem towersTop5_length_le (dff : List IotRow) : (towersTop5 dff).length ≤ 5 :=
  List.length_take_le _ _

/-- The timestamp series of one tower trace: at most 100 points, sorted
ascending, and a suffix of (i.e. the most recent block of) the full sorted
timestamp series of that tower. -/
theorem towerRecent_timestamps_bounded (dff : List IotRow) (t : String) :
    ((towerRecent dff t).map (·.timestamp)).length ≤ 100
    ∧ List.Sorted (· ≤ ·) ((towerRecent dff t).map (·.timestamp))
    ∧ List.IsSuffix ((towerRecent dff t).map (·.timestamp))
        ((sort_values_timestamp (towerRows dff t)).map (·.timestamp)) := by
  have hsorted : List.Sorted tsLe (sort_values_timestamp (towerRows dff t)) :=
    List.sorted_insertionSort tsLe (towerRows dff t)
  have hrec : towerRecent dff t
      = (sort_values_timestamp (towerRows dff t)).drop
          ((sort_values_timestamp (towerRows dff t)).length - 100) := rfl
  refine ⟨?_, ?_, ?_⟩
  · rw [hrec, List.length_map, List.length_drop]
    omega
  · rw [hrec]
    exact (hsorted.sublist (List.drop_sublist _ _)).map _ (fun a b h => h)
  · rw [hrec, List.map_drop]
    exact List.drop_suffix _ _

/-- The tower names of the chart-1 traces are the selected towers. -/
theorem usageTrace_names (dff : List IotRow) :
    ((towersTop5 dff).map (usageTrace dff)).map Trace.name = towersTop5 dff := by
  rw [List.map_map]
  exact List.map_id _

/-- The tower names of the chart-2 traces are the selected towers. -/
theorem usersTrace_names (dff : List IotRow) :
    ((towersTop5 dff).map (usersTrace dff)).map Trace.name = towersTop5 dff := by
  rw [List.map_map]
  exact List.map_id _

/-- The selected towers are pairwise distinct. -/
theorem towersTop5_nodup (dff : List IotRow) : (towersTop5 dff).Nodup :=
  (uniqueFirst_nodup _).sublist (List.take_sublist _ _)

/-- C10: the telecom time-series charts enforce fixed limits.  Initial
render: at most 5 traces per chart, with pairwise-distinct tower names, each
trace holding at most 100 points, sorted by timestamp, forming the most
recent block (a suffix) of the full sorted series of that tower.  Extend: on a
tick (`n` not 0) with a non-empty dataframe and new rows, both charts are
extended with at most 5 per-tower series against trace indices
`[0, 1, 2, 3, 4]` and a retention limit of 200 points per trace. -/
theorem timeseries_chart_limits (df : List IotRow) (region0 : Option String) (w : World)
    (n : Nat) (region2 : Option String) (df2 : List IotRow) (w2 : World)
    (hn : n ≠ 0) (hdf2 : df2.isEmpty = false)
    (hnew : (newData region2 df2).isEmpty = false) :
    ((initialize_charts df region0 w).1.tracesOf.length ≤ 5
      ∧ (initialize_charts df region0 w).2.1.tracesOf.length ≤ 5
      ∧ ((initialize_charts df region0 w).1.tracesOf.map Trace.name).Nodup
      ∧ ((initialize_charts df region0 w).2.1.tracesOf.map Trace.name).Nodup
      ∧ (initialize_charts df region0 w).1.tracesOf.Forall (fun tr =>
          tr.x.length ≤ 100 ∧ List.Sorted (· ≤ ·) tr.x
          ∧ List.IsSuffix tr.x ((sort_values_timestamp
              (towerRows (filterRegion (effRegion df region0) df) tr.name)).map
                (·.timestamp)))
      ∧ (initialize_charts df region0 w).2.1.tracesOf.Forall (fun tr =>
          tr.x.length ≤ 100 ∧ List.Sorted (· ≤ ·) tr.x
          ∧ List.IsSuffix tr.x ((sort_values_timestamp
              (towerRows (filterRegion (effRegion df region0) df) tr.name)).map
                (·.timestamp))))
    ∧ (extend_timeseries n region2 df2 w2
        = (ExtendOut.extend (extendSeriesTs region2 df2) (extendSeriesUsage region2 df2)
            [0, 1, 2, 3, 4] 200,
          ExtendOut.extend (extendSeriesTs region2 df2) (extendSeriesUsers region2 df2)
            [0, 1, 2, 3, 4] 200,
          some (extendKpis (filterRegion region2 df2)), some w2.now)
        ∧ (extendSeriesTs region2 df2).length ≤ 5
        ∧ (extendSeriesUsage region2 df2).length ≤ 5
        ∧ (extendSeriesUsers region2 df2).length ≤ 5) := by
  constructor
  · by_cases hdf : df.isEmpty
    · simp [initialize_charts, hdf, Fig.tracesOf, List.Forall]
    · simp only [initialize_charts, hdf, Bool.false_eq_true, if_false, Fig.tracesOf]
      refine ⟨?_, ?_, ?_, ?_, ?_, ?_⟩
      · rw [List.length_map]; exact towersTop5_length_le _
      · rw [List.length_map]; exact towersTop5_length_le _
      · rw [usageTrace_names]; exact towersTop5_nodup _
      · rw [usersTrace_names]; exact towersTop5_nodup _
      · rw [List.forall_iff_forall_mem]
        intro tr htr
        obtain ⟨t, ht, rfl⟩ := List.mem_map.mp htr
        exact towerRecent_timestamps_bounded _ t
      · rw [List.forall_iff_forall_mem]
        intro tr htr
        obtain ⟨t, ht, rfl⟩ := List.mem_map.mp htr
        exact towerRecent_timestamps_bounded _ t
  · have hrange : List.range 5 = [0, 1, 2, 3, 4] := rfl
    refine ⟨?_, ?_, ?_, ?_⟩
    · simp only [extend_timeseries, if_neg hn, hdf2, hnew, Bool.false_eq_true, if_false,
        hrange]
    · unfold extendSeriesTs; rw [List.length_map]; exact towersTop5_length_le _
    · unfold extendSeriesUsage; rw [List.length_map]; exact towersTop5_length_le _
    · unfold extendSeriesUsers; rw [List.length_map]; exact towersTop5_length_le _

/-- Witness for C10: a one-row dataframe on tick 1 whose single row is new
data, satisfying all three hypotheses. -/
theorem timeseries_chart_limits_witness :
    (1 : Nat) ≠ 0
    ∧ ([sampleIotRow] : List IotRow).isEmpty = false
    ∧ (newData Option.none [sampleIotRow]).isEmpty = false
    ∧ (((initialize_charts [sampleIotRow] Option.none ⟨0⟩).1.tracesOf.length ≤ 5
        ∧ (initialize_charts [sampleIotRow] Option.none ⟨0⟩).2.1.tracesOf.length ≤ 5
        ∧ ((initialize_charts [sampleIotRow] Option.none ⟨0⟩).1.tracesOf.map Trace.name).Nodup
        ∧ ((initialize_charts [sampleIotRow] Option.none ⟨0⟩).2.1.tracesOf.map Trace.name).Nodup
        ∧ (initialize_charts [sampleIotRow] Option.none ⟨0⟩).1.tracesOf.Forall (fun tr =>
            tr.x.length ≤ 100 ∧ List.Sorted (· ≤ ·) tr.x
            ∧ List.IsSuffix tr.x ((sort_values_timestamp
                (towerRows (filterRegion (effRegion [sampleIotRow] Option.none) [sampleIotRow])
                  tr.name)).map (·.timestamp)))
        ∧ (initialize_charts [sampleIotRow] Option.none ⟨0⟩).2.1.tracesOf.Forall (fun tr =>
            tr.x.length ≤ 100 ∧ List.Sorted (· ≤ ·) tr.x
            ∧ List.IsSuffix tr.x ((sort_values_timestamp
                (towerRows (filterRegion (effRegion [sampleIotRow] Option.none) [sampleIotRow])
                  tr.name)).map (·.timestamp))))
      ∧ (extend_timeseries 1 Option.none [sampleIotRow] ⟨42⟩
          = (ExtendOut.extend (extendSeriesTs Option.none [sampleIotRow])
              (extendSeriesUsage Option.none [sampleIotRow]) [0, 1, 2, 3, 4] 200,
            ExtendOut.extend (extendSeriesTs Option.none [sampleIotRow])
              (extendSeriesUsers Option.none [sampleIotRow]) [0, 1, 2, 3, 4] 200,
            some (extendKpis (filterRegion Option.none [sampleIotRow])),
            some (42 : Nat))
          ∧ (extendSeriesTs Option.none [sampleIotRow]).length ≤ 5
          ∧ (extendSeriesUsage Option.none [sampleIotRow]).length ≤ 5
          ∧ (extendSeriesUsers Option.none [sampleIotRow]).length ≤ 5)) :=
  ⟨one_ne_zero, rfl, rfl,
    timeseries_chart_limits [sampleIotRow] Option.none ⟨0⟩ 1 Option.none [sampleIotRow] ⟨42⟩
      one_ne_zero rfl rfl⟩
